import Mathlib

/-!
Shallow embedding of the MCP-to-LangChain adapter
(src/langchain-mcp-tools.ts and src/logger.ts).

The adapter initializes a fleet of MCP servers, converts each server's
discovered tools into LangChain tool objects, and returns the aggregate
tool list together with a composite cleanup function.

Modelling conventions:
* JavaScript errors are modelled as their message strings; fallible
  operations return Except String.
* The behaviour of one external MCP server process (connect handshake,
  tools list response, tool-call responses, transport close outcome) is
  a ServerBehavior record; the adapter code is embedded as pure
  functions over such records.
* Side effects (log emission, transport close attempts) are recorded in
  an event list. Concurrently produced events are serialized in
  configuration order; the claims proved below depend only on event
  membership and counts, never on cross-server interleaving.
-/

/-- JSON values, the shape of tool input schemas and tool-call content. -/
inductive Json where
  | null : Json
  | bool (b : Bool) : Json
  | num (n : Int) : Json
  | str (s : String) : Json
  | arr (elems : List Json) : Json
  | obj (fields : List (String × Json)) : Json

/-- Escape one character the way JSON.stringify does (the cases relevant here). -/
def escapeChar (c : Char) : String :=
  if c = '"' then "\\\""
  else if c = '\\' then "\\\\"
  else if c = '\n' then "\\n"
  else if c = '\t' then "\\t"
  else if c = '\r' then "\\r"
  else String.singleton c

/-- Escape a string for inclusion in a JSON document. -/
def escapeString (s : String) : String :=
  String.join (s.toList.map escapeChar)

mutual
/-- JSON serialization, the model of JSON.stringify. -/
def Json.encode : Json → String
  | .null => "null"
  | .bool true => "true"
  | .bool false => "false"
  | .num n => toString n
  | .str s => "\"" ++ escapeString s ++ "\""
  | .arr xs => "[" ++ Json.encodeElems xs ++ "]"
  | .obj fs => "\x7b" ++ Json.encodeMembers fs ++ "\x7d"

/-- Comma-separated serialization of JSON array elements. -/
def Json.encodeElems : List Json → String
  | [] => ""
  | [x] => x.encode
  | x :: y :: xs => x.encode ++ "," ++ Json.encodeElems (y :: xs)

/-- Comma-separated serialization of JSON object members. -/
def Json.encodeMembers : List (String × Json) → String
  | [] => ""
  | [(k, v)] => "\"" ++ escapeString k ++ "\":" ++ v.encode
  | (k, v) :: m :: fs => "\"" ++ escapeString k ++ "\":" ++ v.encode ++ "," ++ Json.encodeMembers (m :: fs)
end

/-! Logger (src/logger.ts).
LogLevel numeric values: trace = 0, debug = 1, info = 2, warn = 3,
error = 4, fatal = 5. -/

/-- The six log level names accepted by the logger and the logLevel option. -/
inductive LogLevelString where
  | trace | debug | info | warn | error | fatal
deriving Repr, DecidableEq

/-- LOG_LEVEL_MAP of logger.ts: numeric severity of each level name. -/
def LogLevelString.toLevel : LogLevelString → Nat
  | .trace => 0
  | .debug => 1
  | .info => 2
  | .warn => 3
  | .error => 4
  | .fatal => 5

/-- Logger state: the configured minimum level (field level of class Logger). -/
structure Logger where
  level : Nat
deriving Repr, DecidableEq

/-- One observable effect of the adapter: an emitted log line (with its
numeric severity), or an attempt to close a server's transport.
The fromCleanup flag is true for closes performed by a returned cleanup
function and false for the close on the initialization error path. -/
inductive FleetEvent where
  | log (level : Nat) (msg : String)
  | transportClose (server : String) (fromCleanup : Bool)
deriving Repr, DecidableEq

/-- Logger.log of logger.ts: emit the line unless its level is below the
configured minimum (the code returns early when level < this.level). -/
def Logger.logEv (lg : Logger) (lvl : Nat) (msg : String) : List FleetEvent :=
  if lvl < lg.level then [] else [FleetEvent.log lvl msg]

/-! Configuration types (src/langchain-mcp-tools.ts). -/

/-- McpServerConfig: command, args, and an optional environment record.
Environment records are association lists (JavaScript objects have
unique keys; lookup takes the first match). -/
structure McpServerConfig where
  command : String
  args : List String
  env : Option (List (String × String))

/-- JSON rendering of a server config, as JSON.stringify produces for the
initializing log line (an absent env field is omitted). -/
def McpServerConfig.toJson (c : McpServerConfig) : Json :=
  Json.obj ([("command", Json.str c.command),
             ("args", Json.arr (c.args.map Json.str))] ++
    (match c.env with
     | none => []
     | some e => [("env", Json.obj (e.map (fun p => (p.1, Json.str p.2))))]))

/-- Lookup of a key in an environment record. -/
def envLookup (e : List (String × String)) (k : String) : Option String :=
  (e.find? (fun p => p.1 = k)).map Prod.snd

/-- Assignment env[k] = v on a JavaScript object: replace the entry in
place when the key exists, append it otherwise. -/
def envSet (e : List (String × String)) (k v : String) : List (String × String) :=
  if e.any (fun p => p.1 = k) then
    e.map (fun p => if p.1 = k then (k, v) else p)
  else e ++ [(k, v)]

/-- Effective subprocess environment (lines 151-154): spread config.env
(empty when absent); when env.PATH is falsy (absent or the empty
string), assign process.env.PATH or the empty string. processPath is
the orchestrator process's own PATH value, when it has one. -/
def effectiveEnv (cfgEnv : Option (List (String × String))) (processPath : Option String) : List (String × String) :=
  let env := cfgEnv.getD []
  match envLookup env "PATH" with
  | none => envSet env "PATH" (processPath.getD "")
  | some p => if p = "" then envSet env "PATH" (processPath.getD "") else env

/-! Tools and the per-server backend behaviour. -/

/-- A tool as declared by the backend in the tools/list response;
description may be omitted. -/
structure ToolDescriptor where
  name : String
  description : Option String
  inputSchema : Json

/-- Result of a tools/call request: the content field is the only part
the adapter reads. -/
structure CallToolResult where
  content : Json

/-- Externally observable behaviour of one MCP server: outcome of the
connect handshake, of the tools/list request, of tools/call requests
(by tool name and input), and of transport.close. -/
structure ServerBehavior where
  connect : Except String Unit
  listTools : Except String (List ToolDescriptor)
  callTool : String → Json → Except String CallToolResult
  closeTransport : Except String Unit

/-- JavaScript x || '' on an optional string: the empty string when the
value is absent or empty, the value itself otherwise. -/
def strOrEmpty : Option String → String
  | none => ""
  | some s => if s = "" then "" else s

/-- Body of the func closure (lines 189-215): issue the tools/call
request; a request failure propagates; on success return
JSON.stringify of the result's content field. -/
def toolFunc (b : ServerBehavior) (toolName : String) (input : Json) : Except String String :=
  match b.callTool toolName input with
  | .error e => .error e
  | .ok result => .ok (Json.encode result.content)

/-- The LangChain tool object built for one descriptor: name,
description (empty string when absent), the schema handed to the
external schema compiler, and the invocation function. -/
structure DynamicStructuredTool where
  name : String
  description : String
  schema : Json
  func : Json → Except String String

/-- Construction of one DynamicStructuredTool from a descriptor
(lines 181-217). -/
def mkTool (b : ServerBehavior) (d : ToolDescriptor) : DynamicStructuredTool :=
  { name := d.name
    description := strOrEmpty d.description
    schema := d.inputSchema
    func := fun input => toolFunc b d.name input }

/-! Single-server initialization (convertSingleMcpToLangchainTools). -/

/-- McpInitializationError: serverName, message, and the original cause
as details. -/
structure McpInitializationError where
  serverName : String
  message : String
  details : Option String
deriving Repr, DecidableEq

/-- The error thrown at lines 240-244 for a failure with the given cause. -/
def mkInitError (serverName cause : String) : McpInitializationError :=
  { serverName := serverName
    message := "Failed to initialize MCP server: " ++ cause
    details := some cause }

/-- The cleanup function returned on the success path: it closes this
server's transport (close is the recorded outcome of that close). -/
structure McpServerCleanupFn where
  serverName : String
  close : Except String Unit

/-- Outcome of one server's initialization: the result (tools plus
cleanup, or an initialization error), the events produced, and the
effective environment that was passed to the transport constructor. -/
structure SingleInitOutcome where
  result : Except McpInitializationError (List DynamicStructuredTool × McpServerCleanupFn)
  events : List FleetEvent
  transportEnv : List (String × String)

/-- The first failure a server's initialization hits (connect first,
then tools/list), when there is one. -/
def causeOfFailure (b : ServerBehavior) : Option String :=
  match b.connect with
  | .error e => some e
  | .ok _ =>
    match b.listTools with
    | .error e => some e
    | .ok _ => none

/-- The descriptors a server declares (empty when listing never succeeds). -/
def descriptorsOf (b : ServerBehavior) : List ToolDescriptor :=
  match b.listTools with
  | .ok ds => ds
  | .error _ => []

/-- Events of the catch block (lines 230-239): the transport (non-null
once constructed) is closed; a close failure is logged at error level
but does not replace the original error. -/
def errorPathCloseEvents (lg : Logger) (serverName : String) (b : ServerBehavior) : List FleetEvent :=
  [FleetEvent.transportClose serverName false] ++
    (match b.closeTransport with
     | .ok _ => []
     | .error ce => lg.logEv 4 ("Failed to cleanup during initialization error: " ++ ce))

/-- convertSingleMcpToLangchainTools (lines 135-246): derive the
effective environment, construct transport and client (neither
construction fails), connect, list tools, build one tool per
descriptor, and return tools plus a cleanup closing the transport; on a
connect or listing failure close the transport and produce an
McpInitializationError wrapping the cause. -/
def singleInit (lg : Logger) (serverName : String) (config : McpServerConfig)
    (processPath : Option String) (b : ServerBehavior) : SingleInitOutcome :=
  let env := effectiveEnv config.env processPath
  let initLog := lg.logEv 2
    ("MCP server \"" ++ serverName ++ "\": initializing with: " ++ Json.encode config.toJson)
  match b.connect with
  | .error cause =>
    { result := .error (mkInitError serverName cause)
      events := initLog ++ errorPathCloseEvents lg serverName b
      transportEnv := env }
  | .ok _ =>
    let connectedLog := lg.logEv 2 ("MCP server \"" ++ serverName ++ "\": connected")
    match b.listTools with
    | .error cause =>
      { result := .error (mkInitError serverName cause)
        events := initLog ++ connectedLog ++ errorPathCloseEvents lg serverName b
        transportEnv := env }
    | .ok descriptors =>
      let tools := descriptors.map (mkTool b)
      let countLog := lg.logEv 2
        ("MCP server \"" ++ serverName ++ "\": " ++ toString tools.length ++ " tool(s) available:")
      let perToolLogs := (tools.map (fun t => lg.logEv 2 ("- " ++ t.name))).flatten
      { result := .ok (tools, { serverName := serverName, close := b.closeTransport })
        events := initLog ++ connectedLog ++ countLog ++ perToolLogs
        transportEnv := env }

/-- Invoking one returned cleanup function (lines 222-227): close the
transport; when close succeeds log the session-closed line; when close
fails the cleanup rejects with that failure. -/
def runSingleCleanup (lg : Logger) (c : McpServerCleanupFn) : Except String Unit × List FleetEvent :=
  match c.close with
  | .error e => (.error e, [FleetEvent.transportClose c.serverName true])
  | .ok _ =>
    (.ok (), [FleetEvent.transportClose c.serverName true] ++
      lg.logEv 2 ("MCP server \"" ++ c.serverName ++ "\": session closed"))

/-! Fleet orchestration (convertMcpToLangchainTools). -/

/-- One configured server together with its backend's behaviour; a fleet
configuration is a list of these in configuration-key iteration order. -/
structure ServerSpec where
  name : String
  config : McpServerConfig
  behavior : ServerBehavior

/-- LogOptions: the optional logLevel option. -/
structure LogOptions where
  logLevel : Option LogLevelString

/-- Logger construction at line 73: new Logger with level
options?.logLevel || 'info'. -/
def loggerOfOptions (opts : Option LogOptions) : Logger :=
  { level := ((opts.bind LogOptions.logLevel).getD LogLevelString.info).toLevel }

/-- One entry of the settled initialization results: the server's name
paired with its initialization outcome. -/
def initPair (lg : Logger) (processPath : Option String) (s : ServerSpec) : String × SingleInitOutcome :=
  (s.name, singleInit lg s.name s.config processPath s.behavior)

/-- The forEach walk over settled results (lines 89-98): append tools
and cleanups of fulfilled results in order; at the first rejected
result log the failure and throw its error, abandoning the rest. -/
def collectResults (lg : Logger) :
    List (String × SingleInitOutcome) →
    Except (McpInitializationError × List FleetEvent) (List DynamicStructuredTool × List McpServerCleanupFn)
  | [] => .ok ([], [])
  | (name, o) :: rest =>
    match o.result with
    | .error e =>
      .error (e, lg.logEv 4
        ("MCP server \"" ++ name ++ "\": failed to initialize: " ++ (e.details.getD "undefined")))
    | .ok (tools, cl) =>
      match collectResults lg rest with
      | .error p => .error p
      | .ok (ts, cs) => .ok (tools ++ ts, cl :: cs)

/-- The value resolved by convertMcpToLangchainTools on success: the
aggregate tools, and what the returned cleanup closure captures (the
logger, all configured server names, and the per-server cleanups). -/
structure FleetHandle where
  logger : Logger
  serverNames : List String
  tools : List DynamicStructuredTool
  cleanups : List McpServerCleanupFn

/-- Outcome of a fleet initialization: the result and the events produced. -/
structure FleetOutcome where
  result : Except McpInitializationError FleetHandle
  events : List FleetEvent

/-- convertMcpToLangchainTools (lines 64-115): initialize every
configured server, wait for all to settle, walk results in
configuration order throwing at the first failure, and on full success
log the total count (info) and each tool name (debug) and resolve with
tools plus the composite cleanup's captured state. -/
def fleetInit (specs : List ServerSpec) (opts : Option LogOptions) (processPath : Option String) : FleetOutcome :=
  let lg := loggerOfOptions opts
  let outcomes := specs.map (initPair lg processPath)
  let initEvents := (outcomes.map (fun p => p.2.events)).flatten
  match collectResults lg outcomes with
  | .error (e, evs) => { result := .error e, events := initEvents ++ evs }
  | .ok (tools, cleanups) =>
    let summary := lg.logEv 2
      ("MCP servers initialized: " ++ toString tools.length ++ " tool(s) available in total")
    let perTool := (tools.map (fun t => lg.logEv 1 ("- " ++ t.name))).flatten
    { result := .ok { logger := lg, serverNames := specs.map ServerSpec.name,
                      tools := tools, cleanups := cleanups }
      events := initEvents ++ summary ++ perTool }

/-- The composite cleanup function (lines 100-109): run every per-server
cleanup, wait for all to settle, then for each rejected cleanup log an
error line; the server name in that line is serverNames indexed by the
failure's position among the failures (as the code writes it). The
composite itself always resolves. -/
def runCompositeCleanup (h : FleetHandle) : Except String Unit × List FleetEvent :=
  let settled := h.cleanups.map (runSingleCleanup h.logger)
  let runEvents := (settled.map Prod.snd).flatten
  let failures := settled.filterMap (fun p =>
    match p.1 with
    | .error e => some e
    | .ok _ => none)
  let failLogs := (failures.enum.map (fun p =>
    h.logger.logEv 4
      ("MCP server \"" ++ (h.serverNames[p.1]?.getD "undefined") ++ "\": failed to close: " ++ p.2))).flatten
  (.ok (), runEvents ++ failLogs)

/-! Derived notions used by the statements below. -/

/-- Whether an event is a transport close belonging to the given server. -/
def isCloseFor (nm : String) : FleetEvent → Bool
  | .transportClose n _ => n = nm
  | _ => false

/-- Number of transport close attempts for the given server in an event list. -/
def closeCount (evs : List FleetEvent) (nm : String) : Nat :=
  evs.countP (isCloseFor nm)

/-- The tools one server contributes when it initializes successfully. -/
def ServerSpec.initTools (s : ServerSpec) : List DynamicStructuredTool :=
  (descriptorsOf s.behavior).map (mkTool s.behavior)

/-- All events of one server's lifecycle: its initialization events,
followed by the events of invoking its returned cleanup function
(when initialization succeeded and the caller invokes it). -/
def singleRunCloseEvents (lg : Logger) (o : SingleInitOutcome) (invokeCleanup : Bool) : List FleetEvent :=
  o.events ++
    (if invokeCleanup then
      (match o.result with
       | .ok (_, c) => (runSingleCleanup lg c).2
       | .error _ => [])
     else [])

/-! Concrete sample data used by the witness theorems. -/

/-- A small JSON input schema. -/
def demoSchema : Json := Json.obj [("type", Json.str "object")]

/-- A descriptor carrying a description. -/
def demoToolA1 : ToolDescriptor :=
  { name := "toolA1", description := some "Tool A1", inputSchema := demoSchema }

/-- A descriptor whose backend omits the description. -/
def demoToolA2 : ToolDescriptor :=
  { name := "toolA2", description := none, inputSchema := demoSchema }

/-- The sample tool-call content from the specification's example. -/
def demoContent : Json :=
  Json.arr [Json.obj [("type", Json.str "text"), ("text", Json.str "ok")]]

/-- A server that initializes successfully with two tools. -/
def demoGoodBehavior : ServerBehavior :=
  { connect := .ok ()
    listTools := .ok [demoToolA1, demoToolA2]
    callTool := fun _ _ => .ok { content := demoContent }
    closeTransport := .ok () }

/-- A server whose connect handshake fails. -/
def demoBadBehavior : ServerBehavior :=
  { connect := .error "Connection failed"
    listTools := .error "not reached"
    callTool := fun _ _ => .error "not reached"
    closeTransport := .ok () }

/-- A server whose connect handshake fails with a different cause. -/
def demoBadBehavior2 : ServerBehavior :=
  { connect := .error "spawn ENOENT"
    listTools := .error "not reached"
    callTool := fun _ _ => .error "not reached"
    closeTransport := .error "close failed" }

/-- A sample server config. -/
def demoCfg : McpServerConfig :=
  { command := "test-command", args := ["--test"], env := none }

/-- Successful server named alpha. -/
def demoSpecGood : ServerSpec :=
  { name := "alpha", config := demoCfg, behavior := demoGoodBehavior }

/-- Failing server named beta. -/
def demoSpecBad : ServerSpec :=
  { name := "beta", config := demoCfg, behavior := demoBadBehavior }

/-- Failing server named gamma. -/
def demoSpecBad2 : ServerSpec :=
  { name := "gamma", config := demoCfg, behavior := demoBadBehavior2 }

/-- A fleet handle after a successful two-server initialization where
alpha's transport closes cleanly and beta's close rejects. -/
def demoCleanupHandle : FleetHandle :=
  { logger := { level := 2 }
    serverNames := ["alpha", "beta"]
    tools := []
    cleanups := [{ serverName := "alpha", close := .ok () },
                 { serverName := "beta", close := .error "boom" }] }

/-! Basic lemmas about single-server initialization. -/

/-- When neither the handshake nor the listing fails, initialization
returns the mapped tools and a cleanup closing this transport. -/
theorem singleInit_result_ok (lg : Logger) (n : String) (cfg : McpServerConfig)
    (pp : Option String) (b : ServerBehavior) (h : causeOfFailure b = none) :
    (singleInit lg n cfg pp b).result =
      .ok ((descriptorsOf b).map (mkTool b), { serverName := n, close := b.closeTransport }) := by
  unfold causeOfFailure at h
  cases hb : b.connect with
  | error e => simp [hb] at h
  | ok _ =>
    cases hl : b.listTools with
    | error e => simp [hb, hl] at h
    | ok ds => simp [singleInit, hb, hl, descriptorsOf]

/-- When the handshake or the listing fails, initialization returns the
wrapping McpInitializationError built from the first cause. -/
theorem singleInit_result_error (lg : Logger) (n : String) (cfg : McpServerConfig)
    (pp : Option String) (b : ServerBehavior) (c : String) (h : causeOfFailure b = some c) :
    (singleInit lg n cfg pp b).result = .error (mkInitError n c) := by
  unfold causeOfFailure at h
  cases hb : b.connect with
  | error e => simp [hb] at h; simp [singleInit, hb, h]
  | ok _ =>
    cases hl : b.listTools with
    | error e => simp [hb, hl] at h; simp [singleInit, hb, hl, h]
    | ok ds => simp [hb, hl] at h

/-! Lemmas about events. -/

/-- Membership in a logger emission determines the event and bounds its level. -/
theorem mem_logEv (lg : Logger) (l : Nat) (m : String) (e : FleetEvent)
    (h : e ∈ lg.logEv l m) : e = FleetEvent.log l m ∧ lg.level ≤ l := by
  unfold Logger.logEv at h
  by_cases hl : l < lg.level
  · simp [hl] at h
  · simp [hl] at h
    exact ⟨h, Nat.le_of_not_lt hl⟩

/-- Shape of an event produced by one server's initialization: a log
line at or above the logger's level, or this server's error-path close. -/
def InitEventShape (lg : Logger) (n : String) (e : FleetEvent) : Prop :=
  (∃ l m, e = FleetEvent.log l m ∧ lg.level ≤ l) ∨ e = FleetEvent.transportClose n false

/-- Logger emissions satisfy the init event shape. -/
theorem initEventShape_logEv (lg : Logger) (n : String) (l : Nat) (m : String)
    (e : FleetEvent) (h : e ∈ lg.logEv l m) : InitEventShape lg n e := by
  rcases mem_logEv _ _ _ _ h with ⟨rfl, hle⟩
  exact Or.inl ⟨_, _, rfl, hle⟩

/-- Error-path close events satisfy the init event shape. -/
theorem initEventShape_errorPath (lg : Logger) (n : String) (b : ServerBehavior)
    (e : FleetEvent) (h : e ∈ errorPathCloseEvents lg n b) : InitEventShape lg n e := by
  unfold errorPathCloseEvents at h
  rcases List.mem_append.mp h with h | h
  · simp at h
    exact Or.inr h
  · cases hc : b.closeTransport with
    | ok _ => simp [hc] at h
    | error ce =>
      rw [hc] at h
      exact initEventShape_logEv lg n _ _ e h

/-- Per-tool log listings satisfy the init event shape. -/
theorem initEventShape_perTool (lg : Logger) (n : String) (lvl : Nat)
    (tools : List DynamicStructuredTool) (e : FleetEvent)
    (h : e ∈ (tools.map (fun t => lg.logEv lvl ("- " ++ t.name))).flatten) :
    InitEventShape lg n e := by
  rw [List.mem_flatten] at h
  rcases h with ⟨l, hl1, hl2⟩
  rw [List.mem_map] at hl1
  rcases hl1 with ⟨t, _, rfl⟩
  exact initEventShape_logEv lg n _ _ e hl2

/-- Every event of a single-server initialization is either a log line
emitted at or above the logger's level, or the error-path close of this
server's transport. -/
theorem singleInit_events_shape (lg : Logger) (n : String) (cfg : McpServerConfig)
    (pp : Option String) (b : ServerBehavior) (e : FleetEvent)
    (h : e ∈ (singleInit lg n cfg pp b).events) : InitEventShape lg n e := by
  cases hb : b.connect with
  | error c =>
    simp only [singleInit, hb] at h
    rcases List.mem_append.mp h with h | h
    · exact initEventShape_logEv lg n _ _ e h
    · exact initEventShape_errorPath lg n b e h
  | ok _ =>
    cases hl : b.listTools with
    | error c =>
      simp only [singleInit, hb, hl] at h
      rcases List.mem_append.mp h with h | h
      · rcases List.mem_append.mp h with h | h
        · exact initEventShape_logEv lg n _ _ e h
        · exact initEventShape_logEv lg n _ _ e h
      · exact initEventShape_errorPath lg n b e h
    | ok ds =>
      simp only [singleInit, hb, hl] at h
      rcases List.mem_append.mp h with h | h
      · rcases List.mem_append.mp h with h | h
        · rcases List.mem_append.mp h with h | h
          · exact initEventShape_logEv lg n _ _ e h
          · exact initEventShape_logEv lg n _ _ e h
        · exact initEventShape_logEv lg n _ _ e h
      · exact initEventShape_perTool lg n 2 _ e h

/-! Lemmas about transport close counts. -/

/-- Close counting distributes over concatenation. -/
theorem closeCount_append (a b : List FleetEvent) (nm : String) :
    closeCount (a ++ b) nm = closeCount a nm + closeCount b nm := by
  simp [closeCount, List.countP_append]

/-- Logger emissions contain no transport closes. -/
theorem closeCount_logEv (lg : Logger) (l : Nat) (m : String) (nm : String) :
    closeCount (lg.logEv l m) nm = 0 := by
  unfold Logger.logEv
  by_cases hl : l < lg.level <;> simp [hl, closeCount, isCloseFor]

/-- Per-tool log listings contain no transport closes. -/
theorem closeCount_perTool (lg : Logger) (lvl : Nat) (tools : List DynamicStructuredTool) (nm : String) :
    closeCount ((tools.map (fun t => lg.logEv lvl ("- " ++ t.name))).flatten) nm = 0 := by
  induction tools with
  | nil => simp [closeCount]
  | cons t ts ih =>
    simp only [List.map_cons, List.flatten_cons, closeCount_append, ih, closeCount_logEv]

/-- One close event for server n counts once for n and zero otherwise. -/
theorem closeCount_single_close (n : String) (fl : Bool) (nm : String) :
    closeCount [FleetEvent.transportClose n fl] nm = if nm = n then 1 else 0 := by
  by_cases hn : nm = n
  · subst hn; simp [closeCount, isCloseFor]
  · have hn' : ¬(n = nm) := fun hh => hn hh.symm
    simp [closeCount, isCloseFor, hn, hn']

/-- The error path closes this server's transport exactly once. -/
theorem closeCount_errorPath (lg : Logger) (n : String) (b : ServerBehavior) (nm : String) :
    closeCount (errorPathCloseEvents lg n b) nm = if nm = n then 1 else 0 := by
  unfold errorPathCloseEvents
  rw [closeCount_append]
  have h2 : closeCount
      (match b.closeTransport with
       | .ok _ => []
       | .error ce => lg.logEv 4 ("Failed to cleanup during initialization error: " ++ ce)) nm = 0 := by
    cases hc : b.closeTransport with
    | ok _ => simp [closeCount]
    | error ce => exact closeCount_logEv lg 4 _ nm
  rw [h2, Nat.add_zero, closeCount_single_close]

/-- A successful initialization performs no transport close. -/
theorem singleInit_closeCount_ok (lg : Logger) (n : String) (cfg : McpServerConfig)
    (pp : Option String) (b : ServerBehavior) (nm : String) (h : causeOfFailure b = none) :
    closeCount (singleInit lg n cfg pp b).events nm = 0 := by
  unfold causeOfFailure at h
  cases hb : b.connect with
  | error e => simp [hb] at h
  | ok _ =>
    cases hl : b.listTools with
    | error e => simp [hb, hl] at h
    | ok ds =>
      simp only [singleInit, hb, hl]
      rw [closeCount_append, closeCount_append, closeCount_append,
        closeCount_logEv, closeCount_logEv, closeCount_logEv, closeCount_perTool]

/-- A failed initialization closes this server's transport exactly once. -/
theorem singleInit_closeCount_error (lg : Logger) (n : String) (cfg : McpServerConfig)
    (pp : Option String) (b : ServerBehavior) (nm : String) (c : String)
    (h : causeOfFailure b = some c) :
    closeCount (singleInit lg n cfg pp b).events nm = if nm = n then 1 else 0 := by
  unfold causeOfFailure at h
  cases hb : b.connect with
  | error e =>
    simp only [singleInit, hb]
    rw [closeCount_append, closeCount_logEv, closeCount_errorPath, Nat.zero_add]
  | ok _ =>
    cases hl : b.listTools with
    | error e =>
      simp only [singleInit, hb, hl]
      rw [closeCount_append, closeCount_append, closeCount_logEv, closeCount_logEv,
        closeCount_errorPath, Nat.zero_add]
    | ok ds => simp [hb, hl] at h

/-- Invoking one returned cleanup closes its transport exactly once. -/
theorem runSingleCleanup_closeCount (lg : Logger) (c : McpServerCleanupFn) (nm : String) :
    closeCount (runSingleCleanup lg c).2 nm = if nm = c.serverName then 1 else 0 := by
  unfold runSingleCleanup
  cases hc : c.close with
  | error e => by_cases hn : nm = c.serverName <;> simp [closeCount, isCloseFor, hn, eq_comm]
  | ok _ =>
    rw [closeCount_append, closeCount_logEv]
    by_cases hn : nm = c.serverName <;> simp [closeCount, isCloseFor, hn, eq_comm]

/-! Lemmas about the result walk and the fleet initializer. -/

/-- When every server in the list succeeds, the walk aggregates all
tools in order and one cleanup per server in order. -/
theorem collectResults_ok (lg : Logger) (pp : Option String) (specs : List ServerSpec)
    (h : ∀ s ∈ specs, causeOfFailure s.behavior = none) :
    collectResults lg (specs.map (initPair lg pp)) =
      .ok ((specs.map ServerSpec.initTools).flatten,
           specs.map (fun s => { serverName := s.name, close := s.behavior.closeTransport })) := by
  induction specs with
  | nil => simp [collectResults]
  | cons s rest ih =>
    have hs := h s (List.mem_cons_self s rest)
    have hrest : ∀ t ∈ rest, causeOfFailure t.behavior = none :=
      fun t ht => h t (List.mem_cons_of_mem s ht)
    simp only [List.map_cons, collectResults, initPair,
      singleInit_result_ok lg s.name s.config pp s.behavior hs, ih hrest]
    simp [ServerSpec.initTools]

/-- When every server before position k succeeds and the server at
position k fails, the walk stops at k, logs that failure, and returns
exactly its error. -/
theorem collectResults_error_first (lg : Logger) (pp : Option String)
    (pre : List ServerSpec) (s : ServerSpec) (post : List ServerSpec) (c : String)
    (hpre : ∀ t ∈ pre, causeOfFailure t.behavior = none)
    (hs : causeOfFailure s.behavior = some c) :
    collectResults lg ((pre ++ s :: post).map (initPair lg pp)) =
      .error (mkInitError s.name c,
        lg.logEv 4 ("MCP server \"" ++ s.name ++ "\": failed to initialize: " ++ c)) := by
  induction pre with
  | nil =>
    simp only [List.nil_append, List.map_cons, collectResults, initPair,
      singleInit_result_error lg s.name s.config pp s.behavior c hs]
    simp [mkInitError]
  | cons t rest ih =>
    have ht := hpre t (List.mem_cons_self t rest)
    have hrest : ∀ u ∈ rest, causeOfFailure u.behavior = none :=
      fun u hu => hpre u (List.mem_cons_of_mem t hu)
    have hrw := ih hrest
    simp only [List.cons_append, List.map_cons, collectResults, initPair,
      singleInit_result_ok lg t.name t.config pp t.behavior ht, List.append_eq, hrw]

/-- When some server in the list fails, the walk returns the error of
one failing server (the first such in order). -/
theorem collectResults_error_of_exists (lg : Logger) (pp : Option String) :
    ∀ specs : List ServerSpec, (∃ s ∈ specs, (causeOfFailure s.behavior).isSome = true) →
    ∃ s ∈ specs, ∃ c, causeOfFailure s.behavior = some c ∧
      ∃ evs, collectResults lg (specs.map (initPair lg pp)) = .error (mkInitError s.name c, evs) := by
  intro specs
  induction specs with
  | nil => rintro ⟨s, hs, _⟩; exact absurd hs (List.not_mem_nil s)
  | cons s rest ih =>
    intro hex
    cases hc : causeOfFailure s.behavior with
    | some c =>
      refine ⟨s, List.mem_cons_self s rest, c, hc,
        lg.logEv 4 ("MCP server \"" ++ s.name ++ "\": failed to initialize: " ++ c), ?_⟩
      simp only [List.map_cons, collectResults, initPair,
        singleInit_result_error lg s.name s.config pp s.behavior c hc]
      simp [mkInitError]
    | none =>
      have hex' : ∃ t ∈ rest, (causeOfFailure t.behavior).isSome = true := by
        rcases hex with ⟨t, ht, hsome⟩
        rcases List.mem_cons.mp ht with rfl | htr
        · rw [hc] at hsome; simp at hsome
        · exact ⟨t, htr, hsome⟩
      rcases ih hex' with ⟨t, htr, c, hct, evs, hcoll⟩
      refine ⟨t, List.mem_cons_of_mem s htr, c, hct, evs, ?_⟩
      simp only [List.map_cons, collectResults, initPair,
        singleInit_result_ok lg s.name s.config pp s.behavior hc, hcoll]

/-- Every event attached to a walk failure is a log line at or above the
logger's level. -/
theorem collectResults_error_events (lg : Logger) :
    ∀ (l : List (String × SingleInitOutcome)) (e : McpInitializationError) (evs : List FleetEvent),
    collectResults lg l = .error (e, evs) →
    ∀ ev ∈ evs, ∃ lv m, ev = FleetEvent.log lv m ∧ lg.level ≤ lv := by
  intro l
  induction l with
  | nil => intro e evs h; simp [collectResults] at h
  | cons p rest ih =>
    intro e evs h ev hev
    rcases p with ⟨name, o⟩
    cases ho : o.result with
    | error e' =>
      simp only [collectResults, ho] at h
      rcases h with ⟨rfl, rfl⟩
      rcases mem_logEv _ _ _ _ hev with ⟨rfl, hle⟩
      exact ⟨_, _, rfl, hle⟩
    | ok v =>
      rcases v with ⟨tools, cl⟩
      simp only [collectResults, ho] at h
      cases hrest : collectResults lg rest with
      | error q =>
        rcases q with ⟨e2, evs2⟩
        rw [hrest] at h
        simp at h
        rcases h with ⟨rfl, rfl⟩
        exact ih e2 evs2 hrest ev hev
      | ok v2 =>
        rw [hrest] at h
        rcases v2 with ⟨ts, cs⟩
        simp at h

/-- Lifting a walk failure to the fleet initializer's result. -/
theorem fleetInit_result_of_error (specs : List ServerSpec) (opts : Option LogOptions)
    (pp : Option String) (e : McpInitializationError) (evs : List FleetEvent)
    (h : collectResults (loggerOfOptions opts) (specs.map (initPair (loggerOfOptions opts) pp)) =
      .error (e, evs)) :
    (fleetInit specs opts pp).result = .error e := by
  simp only [fleetInit, h]

/-- Lifting a successful walk to the fleet initializer's result. -/
theorem fleetInit_result_of_ok (specs : List ServerSpec) (opts : Option LogOptions)
    (pp : Option String) (ts : List DynamicStructuredTool) (cs : List McpServerCleanupFn)
    (h : collectResults (loggerOfOptions opts) (specs.map (initPair (loggerOfOptions opts) pp)) =
      .ok (ts, cs)) :
    (fleetInit specs opts pp).result =
      .ok { logger := loggerOfOptions opts, serverNames := specs.map ServerSpec.name,
            tools := ts, cleanups := cs } := by
  simp only [fleetInit, h]

/-- Every event of a fleet initialization is either a log line at or
above the logger's level, or an error-path close of one configured
server's transport. -/
theorem fleetInit_events_shape (specs : List ServerSpec) (opts : Option LogOptions)
    (pp : Option String) (e : FleetEvent) (h : e ∈ (fleetInit specs opts pp).events) :
    (∃ l m, e = FleetEvent.log l m ∧ (loggerOfOptions opts).level ≤ l) ∨
      ∃ nm, e = FleetEvent.transportClose nm false := by
  have hinit : e ∈ ((specs.map (initPair (loggerOfOptions opts) pp)).map
      (fun p => p.2.events)).flatten →
      (∃ l m, e = FleetEvent.log l m ∧ (loggerOfOptions opts).level ≤ l) ∨
        ∃ nm, e = FleetEvent.transportClose nm false := by
    intro hm
    rw [List.mem_flatten] at hm
    rcases hm with ⟨l, hl1, hl2⟩
    rw [List.mem_map] at hl1
    rcases hl1 with ⟨p, hp, rfl⟩
    rw [List.mem_map] at hp
    rcases hp with ⟨s, _, rfl⟩
    rcases singleInit_events_shape (loggerOfOptions opts) s.name s.config pp s.behavior e hl2 with
      hsh | hsh
    · exact Or.inl hsh
    · exact Or.inr ⟨s.name, hsh⟩
  cases hcoll : collectResults (loggerOfOptions opts)
      (specs.map (initPair (loggerOfOptions opts) pp)) with
  | error q =>
    rcases q with ⟨e2, evs2⟩
    simp only [fleetInit, hcoll] at h
    rcases List.mem_append.mp h with h | h
    · exact hinit h
    · rcases collectResults_error_events (loggerOfOptions opts) _ e2 evs2 hcoll e h with
        ⟨lv, m, rfl, hle⟩
      exact Or.inl ⟨lv, m, rfl, hle⟩
  | ok v =>
    rcases v with ⟨ts, cs⟩
    simp only [fleetInit, hcoll] at h
    rcases List.mem_append.mp h with h | h
    · rcases List.mem_append.mp h with h | h
      · exact hinit h
      · rcases mem_logEv _ _ _ _ h with ⟨rfl, hle⟩
        exact Or.inl ⟨_, _, rfl, hle⟩
    · rw [List.mem_flatten] at h
      rcases h with ⟨l, hl1, hl2⟩
      rw [List.mem_map] at hl1
      rcases hl1 with ⟨t, _, rfl⟩
      rcases mem_logEv _ _ _ _ hl2 with ⟨rfl, hle⟩
      exact Or.inl ⟨_, _, rfl, hle⟩

/-- No fleet initialization event is a cleanup-path transport close:
successfully initialized servers' cleanups are not invoked during
initialization, in particular not on the failure path. -/
theorem fleetInit_no_cleanup_close (specs : List ServerSpec) (opts : Option LogOptions)
    (pp : Option String) (nm : String) :
    FleetEvent.transportClose nm true ∉ (fleetInit specs opts pp).events := by
  intro h
  rcases fleetInit_events_shape specs opts pp _ h with ⟨l, m, heq, _⟩ | ⟨nm2, heq⟩ <;>
    simp at heq

/-! Lemmas about the effective environment. -/

/-- Replacing key k in an environment makes k's lookup the new value
when the key was present. -/
theorem find?_map_replace (k v : String) (e : List (String × String)) :
    (e.map (fun p => if p.1 = k then (k, v) else p)).find? (fun p => p.1 = k) =
      if e.any (fun p => p.1 = k) then some (k, v) else none := by
  induction e with
  | nil => rfl
  | cons a e ih =>
    rw [List.map_cons, List.any_cons]
    by_cases ha : a.1 = k
    · have hd : (decide (a.1 = k)) = true := by simp [ha]
      rw [if_pos ha, List.find?_cons_of_pos _ (by simp), hd, Bool.true_or]
      simp
    · have hd : (decide (a.1 = k)) = false := by simp [ha]
      rw [if_neg ha, List.find?_cons_of_neg _ (by simp [ha]), ih, hd, Bool.false_or]

/-- Replacing key k does not change the lookup of a different key. -/
theorem find?_map_replace_other (k v k' : String) (h : ¬(k' = k)) (e : List (String × String)) :
    (e.map (fun p => if p.1 = k then (k, v) else p)).find? (fun p => p.1 = k') =
      e.find? (fun p => p.1 = k') := by
  have hk : ¬(k = k') := fun hh => h hh.symm
  induction e with
  | nil => rfl
  | cons a e ih =>
    rw [List.map_cons]
    by_cases ha : a.1 = k
    · have hna : ¬(a.1 = k') := by rw [ha]; exact hk
      rw [if_pos ha, List.find?_cons_of_neg _ (by simp [hk]),
        List.find?_cons_of_neg _ (by simp [hna]), ih]
    · by_cases ha' : a.1 = k'
      · rw [if_neg ha, List.find?_cons_of_pos _ (by simp [ha']),
          List.find?_cons_of_pos _ (by simp [ha'])]
      · rw [if_neg ha, List.find?_cons_of_neg _ (by simp [ha']),
          List.find?_cons_of_neg _ (by simp [ha']), ih]

/-- After envSet, the set key's lookup is the assigned value. -/
theorem envLookup_envSet_same (e : List (String × String)) (k v : String) :
    envLookup (envSet e k v) k = some v := by
  unfold envLookup envSet
  by_cases hany : e.any (fun p => p.1 = k)
  · rw [if_pos hany, find?_map_replace, if_pos hany]
    rfl
  · have hfind : e.find? (fun p => p.1 = k) = none := by
      rw [List.find?_eq_none]
      intro x hx hpx
      exact hany (List.any_eq_true.mpr ⟨x, hx, hpx⟩)
    rw [if_neg hany, List.find?_append, hfind, List.find?_cons_of_pos _ (by simp)]
    rfl

/-- After envSet, every other key's lookup is unchanged. -/
theorem envLookup_envSet_other (e : List (String × String)) (k v k' : String) (h : ¬(k' = k)) :
    envLookup (envSet e k v) k' = envLookup e k' := by
  unfold envLookup envSet
  by_cases hany : e.any (fun p => p.1 = k)
  · rw [if_pos hany, find?_map_replace_other k v k' h]
  · have hnk : ¬((k, v).1 = k') := fun hh => h hh.symm
    rw [if_neg hany, List.find?_append, List.find?_cons_of_neg _ (by simp [hnk])]
    simp

/-! Additional helper lemmas for the failure-path claims. -/

/-- On a failed initialization, the error-path close of this server's
transport is among the events. -/
theorem singleInit_error_close_mem (lg : Logger) (n : String) (cfg : McpServerConfig)
    (pp : Option String) (b : ServerBehavior) (c : String) (h : causeOfFailure b = some c) :
    FleetEvent.transportClose n false ∈ (singleInit lg n cfg pp b).events := by
  unfold causeOfFailure at h
  cases hb : b.connect with
  | error e =>
    simp only [singleInit, hb, errorPathCloseEvents]
    exact List.mem_append.mpr (Or.inr (List.mem_append.mpr (Or.inl (List.mem_cons_self _ _))))
  | ok _ =>
    cases hl : b.listTools with
    | error e =>
      simp only [singleInit, hb, hl, errorPathCloseEvents]
      exact List.mem_append.mpr (Or.inr (List.mem_append.mpr (Or.inl (List.mem_cons_self _ _))))
    | ok ds => simp [hb, hl] at h

/-- On a failed initialization whose transport close also fails, the
close failure is logged (at error severity, so whenever the configured
minimum level admits it). -/
theorem singleInit_closeFail_log_mem (lg : Logger) (n : String) (cfg : McpServerConfig)
    (pp : Option String) (b : ServerBehavior) (c ce : String) (h : causeOfFailure b = some c)
    (hce : b.closeTransport = .error ce) (hlv : lg.level ≤ 4) :
    FleetEvent.log 4 ("Failed to cleanup during initialization error: " ++ ce) ∈
      (singleInit lg n cfg pp b).events := by
  unfold causeOfFailure at h
  have hlog : FleetEvent.log 4 ("Failed to cleanup during initialization error: " ++ ce) ∈
      errorPathCloseEvents lg n b := by
    unfold errorPathCloseEvents
    refine List.mem_append.mpr (Or.inr ?_)
    rw [hce]
    show FleetEvent.log 4 _ ∈ lg.logEv 4 _
    unfold Logger.logEv
    rw [if_neg (Nat.not_lt.mpr hlv)]
    exact List.mem_cons_self _ _
  cases hb : b.connect with
  | error e =>
    simp only [singleInit, hb]
    exact List.mem_append.mpr (Or.inr hlog)
  | ok _ =>
    cases hl : b.listTools with
    | error e =>
      simp only [singleInit, hb, hl]
      exact List.mem_append.mpr (Or.inr hlog)
    | ok ds => simp [hb, hl] at h

/-! The claims. -/

/-- Claim C1: whenever at least one server's connector initialization
fails, convertMcpToLangchainTools rejects with an
McpInitializationError whose serverName names a failing server, and no
tools/cleanup result object is returned to the caller. -/
theorem claim_C1 (specs : List ServerSpec) (opts : Option LogOptions) (pp : Option String)
    (h : ∃ s ∈ specs, (causeOfFailure s.behavior).isSome = true) :
    (∃ e, (fleetInit specs opts pp).result = .error e ∧
      ∃ s ∈ specs, (causeOfFailure s.behavior).isSome = true ∧ e.serverName = s.name) ∧
    ∀ hd, (fleetInit specs opts pp).result ≠ .ok hd := by
  rcases collectResults_error_of_exists (loggerOfOptions opts) pp specs h with
    ⟨s, hsmem, c, hc, evs, hcoll⟩
  have hres := fleetInit_result_of_error specs opts pp _ _ hcoll
  constructor
  · exact ⟨mkInitError s.name c, hres, s, hsmem, by rw [hc]; rfl, rfl⟩
  · intro hd hok
    rw [hres] at hok
    cases hok

/-- Witness for C1: a fleet with a failing server rejects with an error
naming a failing server. -/
theorem claim_C1_witness :
    ∃ e, (fleetInit [demoSpecGood, demoSpecBad] none none).result = .error e ∧
      ∃ s ∈ [demoSpecGood, demoSpecBad], (causeOfFailure s.behavior).isSome = true ∧
        e.serverName = s.name :=
  (claim_C1 [demoSpecGood, demoSpecBad] none none
    ⟨demoSpecBad, List.mem_cons_of_mem _ (List.mem_cons_self _ _), rfl⟩).1

/-- Claim C2: with several failing servers, exactly the first failing
server's McpInitializationError (in configuration-key iteration order)
is surfaced, and no successfully initialized server's cleanup is
invoked on this failure path. -/
theorem claim_C2 (opts : Option LogOptions) (pp : Option String)
    (pre : List ServerSpec) (s : ServerSpec) (post : List ServerSpec) (c : String) (t : ServerSpec)
    (hpre : ∀ u ∈ pre, causeOfFailure u.behavior = none)
    (hs : causeOfFailure s.behavior = some c)
    (ht : t ∈ post) (htf : (causeOfFailure t.behavior).isSome = true) :
    (fleetInit (pre ++ s :: post) opts pp).result = .error (mkInitError s.name c) ∧
    ∀ nm, FleetEvent.transportClose nm true ∉ (fleetInit (pre ++ s :: post) opts pp).events := by
  refine ⟨?_, fun nm => fleetInit_no_cleanup_close _ opts pp nm⟩
  exact fleetInit_result_of_error _ opts pp _ _
    (collectResults_error_first (loggerOfOptions opts) pp pre s post c hpre hs)

/-- Witness for C2: with beta and gamma both failing after the
successful alpha, beta's error is the one surfaced. -/
theorem claim_C2_witness :
    (fleetInit [demoSpecGood, demoSpecBad, demoSpecBad2] none none).result =
      .error (mkInitError "beta" "Connection failed") :=
  (claim_C2 none none [demoSpecGood] demoSpecBad [demoSpecBad2] "Connection failed" demoSpecBad2
    (fun u hu => by
      rcases List.mem_cons.mp hu with rfl | hu
      · rfl
      · exact absurd hu (List.not_mem_nil u))
    rfl (List.mem_cons_self _ _) rfl).1

/-- Claim C4: when every server initializes successfully, the returned
tools are the concatenation, in configuration-key iteration order, of
each server's tools in backend-declared order, and their number is the
sum of the per-server discovered tool counts. -/
theorem claim_C4 (specs : List ServerSpec) (opts : Option LogOptions) (pp : Option String)
    (h : ∀ s ∈ specs, causeOfFailure s.behavior = none) :
    ∃ hd, (fleetInit specs opts pp).result = .ok hd ∧
      hd.tools = (specs.map ServerSpec.initTools).flatten ∧
      hd.tools.length = (specs.map (fun s => (descriptorsOf s.behavior).length)).sum := by
  have hcoll := collectResults_ok (loggerOfOptions opts) pp specs h
  refine ⟨_, fleetInit_result_of_ok specs opts pp _ _ hcoll, rfl, ?_⟩
  rw [List.length_flatten, List.map_map]
  congr 1
  apply List.map_congr_left
  intro s _
  simp [ServerSpec.initTools]

/-- Witness for C4: a one-server fleet with two declared tools. -/
theorem claim_C4_witness :
    ∃ hd, (fleetInit [demoSpecGood] none none).result = .ok hd ∧
      hd.tools = ([demoSpecGood].map ServerSpec.initTools).flatten ∧
      hd.tools.length = ([demoSpecGood].map (fun s => (descriptorsOf s.behavior).length)).sum :=
  claim_C4 [demoSpecGood] none none
    (fun s hs => by
      rcases List.mem_cons.mp hs with rfl | hs
      · rfl
      · exact absurd hs (List.not_mem_nil s))

/-- Claim C5: a CallableTool's invoke result is exactly the JSON
encoding of the backend response's content field, deterministically. -/
theorem claim_C5 (b : ServerBehavior) (d : ToolDescriptor) (input : Json) (r : CallToolResult)
    (h : b.callTool d.name input = .ok r) :
    (mkTool b d).func input = .ok (Json.encode r.content) := by
  simp [mkTool, toolFunc, h]

/-- Witness for C5: the specification's example content serializes to
the expected string. -/
theorem claim_C5_witness :
    (mkTool demoGoodBehavior demoToolA1).func Json.null =
      .ok "[\x7b\"type\":\"text\",\"text\":\"ok\"\x7d]" :=
  claim_C5 demoGoodBehavior demoToolA1 Json.null { content := demoContent } rfl

/-- Claim C6: when the handshake or the capability listing fails after
the transport was constructed, the transport close is attempted before
the error surfaces; the raised error's message and details are built
from the original cause only, unchanged by the close outcome; a failing
close is logged at error severity. -/
theorem claim_C6 (lg : Logger) (n : String) (cfg : McpServerConfig) (pp : Option String)
    (b : ServerBehavior) (cause : String) (h : causeOfFailure b = some cause) :
    (singleInit lg n cfg pp b).result = .error (mkInitError n cause) ∧
    FleetEvent.transportClose n false ∈ (singleInit lg n cfg pp b).events ∧
    (mkInitError n cause).message = "Failed to initialize MCP server: " ++ cause ∧
    (mkInitError n cause).details = some cause ∧
    (∀ cl : Except String Unit,
      (singleInit lg n cfg pp { b with closeTransport := cl }).result =
        .error (mkInitError n cause)) ∧
    (∀ ce, b.closeTransport = .error ce → lg.level ≤ 4 →
      FleetEvent.log 4 ("Failed to cleanup during initialization error: " ++ ce) ∈
        (singleInit lg n cfg pp b).events) := by
  refine ⟨singleInit_result_error lg n cfg pp b cause h,
    singleInit_error_close_mem lg n cfg pp b cause h, rfl, rfl, ?_, ?_⟩
  · intro cl
    exact singleInit_result_error lg n cfg pp { b with closeTransport := cl } cause h
  · intro ce hce hlv
    exact singleInit_closeFail_log_mem lg n cfg pp b cause ce h hce hlv

/-- Witness for C6: a server whose connect and close both fail still
raises the original cause, and the close failure is logged. -/
theorem claim_C6_witness :
    FleetEvent.log 4 ("Failed to cleanup during initialization error: " ++ "close failed") ∈
      (singleInit { level := 2 } "delta" demoCfg none demoBadBehavior2).events :=
  (claim_C6 { level := 2 } "delta" demoCfg none demoBadBehavior2 "spawn ENOENT"
    rfl).2.2.2.2.2 "close failed" rfl (by decide)

/-- Claim C8: across one initialization and at most one invocation of
the returned cleanup, a server's transport is closed at most once; in
particular the error-path close and the cleanup close never both
happen. -/
theorem claim_C8 (lg : Logger) (n : String) (cfg : McpServerConfig) (pp : Option String)
    (b : ServerBehavior) (invokeCleanup : Bool) (nm : String) :
    closeCount (singleRunCloseEvents lg (singleInit lg n cfg pp b) invokeCleanup) nm ≤ 1 := by
  cases hc : causeOfFailure b with
  | some c =>
    simp only [singleRunCloseEvents, singleInit_result_error lg n cfg pp b c hc]
    rw [closeCount_append, singleInit_closeCount_error lg n cfg pp b nm c hc]
    have hz : closeCount (if invokeCleanup = true then ([] : List FleetEvent) else []) nm = 0 := by
      cases invokeCleanup <;> simp [closeCount]
    rw [hz, Nat.add_zero]
    split <;> omega
  | none =>
    simp only [singleRunCloseEvents, singleInit_result_ok lg n cfg pp b hc]
    rw [closeCount_append, singleInit_closeCount_ok lg n cfg pp b nm hc, Nat.zero_add]
    cases invokeCleanup with
    | false =>
      rw [if_neg (by simp)]
      simp [closeCount]
    | true =>
      rw [if_pos rfl, runSingleCleanup_closeCount]
      split <;> omega

/-- Claim C3 (code evaluation at the failing input): the composite
cleanup resolves even though beta's close rejects, but the failure log
names alpha — whose close succeeded — because the code indexes the full
server-name list by the failure's position among the failures only. -/
theorem claim_C3_cleanup_eval :
    (runCompositeCleanup demoCleanupHandle).1 = Except.ok () ∧
    (runCompositeCleanup demoCleanupHandle).2.filter
        (fun e => match e with
          | FleetEvent.log 4 _ => true
          | _ => false) =
      [FleetEvent.log 4 "MCP server \"alpha\": failed to close: boom"] := by
  constructor
  · rfl
  · decide

/-- Claim C7 (amended): the effective environment starts from
config.env; the process PATH (or the empty string when the process has
none) is inherited exactly when config.env has no PATH entry or its
PATH entry is the empty string; a non-empty PATH entry is used
unchanged. -/
theorem claim_C7_amended (cfgEnv : Option (List (String × String))) (pp : Option String) :
    (∀ k, ¬(k = "PATH") → envLookup (effectiveEnv cfgEnv pp) k = envLookup (cfgEnv.getD []) k) ∧
    ((envLookup (cfgEnv.getD []) "PATH" = none ∨ envLookup (cfgEnv.getD []) "PATH" = some "") →
      envLookup (effectiveEnv cfgEnv pp) "PATH" = some (pp.getD "")) ∧
    (∀ p, envLookup (cfgEnv.getD []) "PATH" = some p → ¬(p = "") →
      envLookup (effectiveEnv cfgEnv pp) "PATH" = some p) := by
  cases hl : envLookup (cfgEnv.getD []) "PATH" with
  | none =>
    simp only [effectiveEnv, hl]
    refine ⟨fun k hk => envLookup_envSet_other _ _ _ _ hk,
      fun _ => envLookup_envSet_same _ _ _, ?_⟩
    intro p hp
    cases hp
  | some q =>
    by_cases hq : q = ""
    · subst hq
      simp only [effectiveEnv, hl, if_pos rfl]
      refine ⟨fun k hk => envLookup_envSet_other _ _ _ _ hk,
        fun _ => envLookup_envSet_same _ _ _, ?_⟩
      intro p hp hpne
      injection hp with hp2
      exact absurd hp2.symm hpne
    · simp only [effectiveEnv, hl, if_neg hq]
      refine ⟨fun k _ => trivial, ?_, ?_⟩
      · intro hcase
        rcases hcase with hcase | hcase
        · exact absurd hcase (by simp)
        · injection hcase with hq2
          exact absurd hq2 hq
      · intro p hp _
        exact hp

/-- Witness for C7: with no PATH entry configured, the process PATH is
inherited. -/
theorem claim_C7_witness :
    envLookup (effectiveEnv (some [("HOME", "/root")]) (some "/usr/bin")) "PATH" =
      some "/usr/bin" :=
  (claim_C7_amended (some [("HOME", "/root")]) (some "/usr/bin")).2.1 (Or.inl (by decide))

/-- Counterexample for C7 as stated: config.env contains a PATH entry
(the empty string), yet the effective environment does not use that
entry unchanged — it is overwritten by the process PATH. -/
theorem claim_C7_counterexample :
    envLookup [("PATH", "")] "PATH" = some "" ∧
    envLookup (effectiveEnv (some [("PATH", "")]) (some "/usr/bin")) "PATH" = some "/usr/bin" ∧
    ¬(("/usr/bin" : String) = "") := by
  refine ⟨by decide, by decide, by decide⟩

/-- Claim C9: a descriptor whose backend omits the description yields a
tool whose description is the empty string. -/
theorem claim_C9 (b : ServerBehavior) (d : ToolDescriptor) (h : d.description = none) :
    (mkTool b d).description = "" := by
  simp [mkTool, strOrEmpty, h]

/-- Witness for C9: the description-less demo descriptor. -/
theorem claim_C9_witness : (mkTool demoGoodBehavior demoToolA2).description = "" :=
  claim_C9 demoGoodBehavior demoToolA2 rfl

/-- Claim C10: without a logLevel option the logger's minimum level is
info (2); debug and trace emissions are suppressed while info and above
are emitted, and every log line of such a fleet initialization —
which excludes the debug-level per-tool listing — has level at least
info. -/
theorem claim_C10 (opts : Option LogOptions) (specs : List ServerSpec) (pp : Option String)
    (lvl : Nat) (msg : String) (h : opts.bind LogOptions.logLevel = none) :
    (loggerOfOptions opts).level = 2 ∧
    (lvl < 2 → (loggerOfOptions opts).logEv lvl msg = []) ∧
    (2 ≤ lvl → (loggerOfOptions opts).logEv lvl msg = [FleetEvent.log lvl msg]) ∧
    (FleetEvent.log lvl msg ∈ (fleetInit specs opts pp).events → 2 ≤ lvl) := by
  have hlg : loggerOfOptions opts = { level := 2 } := by
    unfold loggerOfOptions
    rw [h]
    rfl
  refine ⟨by rw [hlg], ?_, ?_, ?_⟩
  · intro hlt
    rw [hlg]
    unfold Logger.logEv
    rw [if_pos hlt]
  · intro hge
    rw [hlg]
    unfold Logger.logEv
    rw [if_neg (Nat.not_lt.mpr hge)]
  · intro hmem
    rcases fleetInit_events_shape specs opts pp _ hmem with ⟨l, m, heq, hle⟩ | ⟨nm, heq⟩
    · injection heq with h1 h2
      rw [hlg] at hle
      rw [h1]
      exact hle
    · cases heq

/-- Witness for C10: the fleet-level per-tool listing (debug) is
suppressed under the default level. -/
theorem claim_C10_witness : (loggerOfOptions none).logEv 1 "- toolA1" = [] :=
  (claim_C10 none [] none 1 "- toolA1" rfl).2.1 (by decide)
